import Mathlib

/-!
A shallow embedding of the debugger-command layer implemented in
src/hyperdbg/hyperkd/code/debugger/commands/DebuggerCommands.c, together
with theorems checking the documented behaviour of the memory read engine,
the breakpoint-shadow masking, the vmx-root edit engine, the MSR broadcast
engine and the pattern-search engine against that code.

Machine integers are modelled as `Nat` (all the arithmetic performed by the
embedded routines stays far below 2 to the 64, so no wrap-around occurs);
memory is a byte function `Nat → Nat`; external collaborators (safe readers,
translation primitives, WOW64 queries, DPC dispatch) are parameters of the
embedded functions.  Loops are embedded with an explicit iteration budget
that is provably at least the number of iterations the C loop performs
(each loop strictly increases its cursor by at least one per iteration).
-/

/-- Kernel status codes written into the request structures
(`DEBUGGER_OPERATION_WAS_SUCCESSFUL`, `DEBUGGER_ERROR_*`). -/
inductive DebuggerStatus where
  | operationSuccessful
  | readingMemoryInvalidParameter
  | invalidPhysicalAddress
  | invalidAddress
  | memoryTypeInvalid
  | editInvalidParameter
  | editInvalidAddressCurrentProcess
  | editInvalidAddressOtherProcess
deriving DecidableEq

/-- NTSTATUS values returned by the command entry points. -/
inductive NtStatus where
  | success
  | invalidParameter
  | unsuccessful
  | insufficientResources
deriving DecidableEq

/-- `DEBUGGER_READ_ADDRESS_MODE_*` values (the inferred disassembly mode). -/
inductive AddressMode where
  | unknownMode
  | bit32
  | bit64
deriving DecidableEq

/-- `DEBUGGER_READ_MEMORY_TYPE`: virtual, physical, or any other (invalid)
enum value. -/
inductive ReadMemType where
  | virtualMem
  | physicalMem
  | invalidMem
deriving DecidableEq

/-- One entry of the breakpoint shadow table `g_BreakpointsListHead`
(`DEBUGGEE_BP_DESCRIPTOR`): the breakpoint address and the original byte. -/
structure BpDescriptor where
  address : Nat
  previousByte : Nat
deriving DecidableEq

/-- The post-processing loop of `DebuggerCommandReadMemoryVmxRoot`
(lines 194-218): walk the breakpoint list in table order; for every
descriptor with `Address <= desc.Address <= Address + Size`, if the byte of
the destination buffer at offset `desc.Address - Address` equals the trap
opcode 0xCC, overwrite it with the descriptor's previous byte. -/
def applyBpMask (address size : Nat) : List BpDescriptor → (Nat → Nat) → (Nat → Nat)
  | [], buf => buf
  | d :: rest, buf =>
    applyBpMask address size rest
      (if address ≤ d.address ∧ d.address ≤ address + size then
        (if buf (d.address - address) = 0xCC then
          fun i => if i = d.address - address then d.previousByte else buf i
         else buf)
       else buf)

/-- Outcome of `DebuggerCommandReadMemory`: the BOOLEAN return value, the
`KernelStatus` field, the (possibly updated) `AddressMode` field and the
number of bytes copied into the caller's buffer. -/
structure ReadMemResult where
  ret : Bool
  status : DebuggerStatus
  addressMode : AddressMode
  bytesCopied : Nat
deriving DecidableEq

/-- `DebuggerCommandReadMemory` (lines 24-126).  `readOk` and `readBytes`
stand for the outcome of the external `MemoryManagerReadProcessMemoryNormal`
call; `wow64` is the outcome of `UserAccessIsWow64Process` (`none` means the
query itself failed). -/
def DebuggerCommandReadMemory (pid size address : Nat) (memType : ReadMemType)
    (getAddressMode : Bool) (amIn : AddressMode) (readOk : Bool) (readBytes : Nat)
    (wow64 : Option Bool) : ReadMemResult :=
  if size ≠ 0 ∧ address ≠ 0 then
    if readOk = true then
      ⟨true, DebuggerStatus.operationSuccessful,
        (if memType = ReadMemType.virtualMem ∧ getAddressMode = true then
          (if 0xFFFF800000000000 ≤ address ∧ address ≤ 0xFFFFFFFFFFFFFFFF then
            AddressMode.bit64
           else
            match wow64 with
            | some true => AddressMode.bit32
            | some false => AddressMode.bit64
            | none => AddressMode.bit64)
         else amIn),
        readBytes⟩
    else
      ⟨false, DebuggerStatus.readingMemoryInvalidParameter, amIn, readBytes⟩
  else
    ⟨false, DebuggerStatus.readingMemoryInvalidParameter, amIn, 0⟩

/-- Outcome of `DebuggerCommandReadMemoryVmxRoot`: return value,
`KernelStatus`, inferred address mode, the final destination buffer and the
`*ReturnSize` output (`none` when the function returns without setting it). -/
structure VmxReadResult where
  ret : Bool
  status : DebuggerStatus
  addressMode : AddressMode
  buffer : Nat → Nat
  returnSize : Option Nat

/-- `DebuggerCommandReadMemoryVmxRoot` (lines 136-277).  `physValid` is the
outcome of `CheckAddressPhysical`, `accessSafe` of
`CheckAccessValidityAndSafety`; `buf0` is the initial content of the
caller-provided buffer, `physRead`/`virtRead` the bytes produced by the safe
physical/virtual copy, `bpTable` the breakpoint list and `wow64` the outcome
of `UserAccessIsWow64ProcessByEprocess` on the current process. -/
def DebuggerCommandReadMemoryVmxRoot (pid size address : Nat) (memType : ReadMemType)
    (getAddressMode : Bool) (amIn : AddressMode) (physValid accessSafe : Bool)
    (buf0 physRead virtRead : Nat → Nat) (bpTable : List BpDescriptor)
    (wow64 : Option Bool) : VmxReadResult :=
  let inferredMode : AddressMode :=
    if memType = ReadMemType.virtualMem ∧ getAddressMode = true then
      (if 0xFFFF800000000000 ≤ address ∧ address ≤ 0xFFFFFFFFFFFFFFFF then
        AddressMode.bit64
       else
        match wow64 with
        | some true => AddressMode.bit32
        | some false => AddressMode.bit64
        | none => AddressMode.bit64)
    else amIn
  match memType with
  | ReadMemType.physicalMem =>
    if physValid = false then
      ⟨false, DebuggerStatus.invalidPhysicalAddress, amIn, buf0, none⟩
    else
      ⟨true, DebuggerStatus.operationSuccessful, inferredMode, physRead, some size⟩
  | ReadMemType.virtualMem =>
    if accessSafe = false then
      ⟨false, DebuggerStatus.invalidAddress, amIn, buf0, none⟩
    else
      ⟨true, DebuggerStatus.operationSuccessful, inferredMode,
        applyBpMask address size bpTable virtRead, some size⟩
  | ReadMemType.invalidMem =>
    ⟨false, DebuggerStatus.memoryTypeInvalid, amIn, buf0, none⟩

/-- The address-mode classification exactly as the specification words it:
canonical-kernel-range addresses are always 64-bit, lower addresses follow
the process WOW64 classification, and a failed query defaults to 64-bit. -/
def specAddressMode (address : Nat) (wow64 : Option Bool) : AddressMode :=
  if 0xFFFF800000000000 ≤ address then AddressMode.bit64
  else
    match wow64 with
    | some true => AddressMode.bit32
    | some false => AddressMode.bit64
    | none => AddressMode.bit64

lemma applyBpMask_untouched (address size i : Nat) :
    ∀ (table : List BpDescriptor) (buf : Nat → Nat),
      (∀ d ∈ table, address ≤ d.address → d.address ≤ address + size →
        d.address - address ≠ i) →
      applyBpMask address size table buf i = buf i
  | [], buf, _ => rfl
  | d :: rest, buf, h => by
    have hrest : ∀ d' ∈ rest, address ≤ d'.address → d'.address ≤ address + size →
        d'.address - address ≠ i :=
      fun d' hd' => h d' (List.mem_cons_of_mem _ hd')
    simp only [applyBpMask]
    rw [applyBpMask_untouched address size i rest _ hrest]
    by_cases hrange : address ≤ d.address ∧ d.address ≤ address + size
    · rw [if_pos hrange]
      by_cases hcc : buf (d.address - address) = 0xCC
      · rw [if_pos hcc, if_neg]
        exact fun hi => h d (List.mem_cons_self _ _) hrange.1 hrange.2 (hi ▸ rfl)
      · rw [if_neg hcc]
    · rw [if_neg hrange]

lemma applyBpMask_desc (address size : Nat) :
    ∀ (table : List BpDescriptor) (buf : Nat → Nat) (d : BpDescriptor),
      table.Pairwise (fun a b => a.address ≠ b.address) →
      d ∈ table → address ≤ d.address → d.address ≤ address + size →
      applyBpMask address size table buf (d.address - address) =
        if buf (d.address - address) = 0xCC then d.previousByte
        else buf (d.address - address)
  | [], _, _, _, hmem, _, _ => absurd hmem (List.not_mem_nil _)
  | e :: rest, buf, d, hdist, hmem, h1, h2 => by
    obtain ⟨hhead, htail⟩ := List.pairwise_cons.mp hdist
    rcases List.mem_cons.mp hmem with rfl | hmem'
    · -- the descriptor is the head of the table
      simp only [applyBpMask]
      rw [if_pos ⟨h1, h2⟩]
      by_cases hcc : buf (d.address - address) = 0xCC
      · rw [if_pos hcc, if_pos hcc]
        rw [applyBpMask_untouched]
        · simp
        · intro d' hd' hd'1 _ hoff
          have : d'.address = d.address := by omega
          exact hhead d' hd' this.symm
      · rw [if_neg hcc, if_neg hcc]
        rw [applyBpMask_untouched]
        · intro d' hd' hd'1 _ hoff
          have : d'.address = d.address := by omega
          exact hhead d' hd' this.symm
    · -- the descriptor sits in the tail; the head step leaves its offset alone
      simp only [applyBpMask]
      have hbuf' :
          (if address ≤ e.address ∧ e.address ≤ address + size then
            (if buf (e.address - address) = 0xCC then
              fun i => if i = e.address - address then e.previousByte else buf i
             else buf)
           else buf) (d.address - address) = buf (d.address - address) := by
        by_cases hrange : address ≤ e.address ∧ e.address ≤ address + size
        · rw [if_pos hrange]
          by_cases hcc : buf (e.address - address) = 0xCC
          · rw [if_pos hcc]
            have hne : d.address - address ≠ e.address - address := by
              intro hoff
              have : e.address = d.address := by omega
              exact hhead d hmem' this
            simp only [hne, if_false]
          · rw [if_neg hcc]
        · rw [if_neg hrange]
      rw [applyBpMask_desc address size rest _ d htail hmem' h1 h2, hbuf']

/-- Modelled from the spec: the all-cores sentinel
`DEBUGGER_READ_AND_WRITE_ON_MSR_APPLY_ALL_CORES`, defined in headers that are
not part of this repository snapshot.  The spec only says the core selector
is "either a specific logical core index or an all-cores sentinel"; the
sentinel's concrete value is immaterial to the theorems below, which exclude
it by hypothesis. -/
def DEBUGGER_READ_AND_WRITE_ON_MSR_APPLY_ALL_CORES : Nat := 0xFFFFFFFF

/-- `DEBUGGER_MSR_ACTION_TYPE`: write, read, or any other (invalid) value. -/
inductive MsrAction where
  | msrWrite
  | msrRead
  | msrOther
deriving DecidableEq

/-- Outcome of `DebuggerReadOrWriteMsr`: the NTSTATUS, the `*ReturnSize`
output (`none` when the function returns without setting it), the per-core
MSR state table `g_DbgState[i].MsrState` (pairs of Msr and Value) after the
call, and the values written to the user buffer in order. -/
structure MsrOutcome where
  status : NtStatus
  returnSize : Option Nat
  state : Nat → Nat × Nat
  userBuffer : List Nat

/-- `DebuggerReadOrWriteMsr` (lines 287-432).  `state` is the per-core MSR
slot table; `readVal i` is the value core `i` reads from the MSR hardware
when its DPC runs; `dpcStatus` is the status of
`DpcRoutineRunTaskOnSingleCore`.  Broadcast DPCs write the hardware on every
core (write action, no slot change) or deposit the per-core reading in each
slot's Value (read action). -/
def DebuggerReadOrWriteMsr (action : MsrAction) (coreNumber msr value : Nat)
    (processorsCount : Nat) (state : Nat → Nat × Nat) (readVal : Nat → Nat)
    (dpcStatus : NtStatus) : MsrOutcome :=
  if action = MsrAction.msrWrite then
    if coreNumber = DEBUGGER_READ_AND_WRITE_ON_MSR_APPLY_ALL_CORES then
      ⟨NtStatus.success, some 0,
        fun i => if i < processorsCount then (msr, value) else state i, []⟩
    else
      if processorsCount ≤ coreNumber then
        ⟨NtStatus.invalidParameter, none, state, []⟩
      else
        ⟨dpcStatus, some 0,
          fun i => if i = coreNumber then (msr, value) else state i, []⟩
  else if action = MsrAction.msrRead then
    if coreNumber = DEBUGGER_READ_AND_WRITE_ON_MSR_APPLY_ALL_CORES then
      ⟨NtStatus.success, some (8 * processorsCount),
        fun i => if i < processorsCount then (msr, readVal i) else state i,
        (List.range processorsCount).map readVal⟩
    else
      if processorsCount ≤ coreNumber then
        ⟨NtStatus.invalidParameter, some 0, state, []⟩
      else
        if dpcStatus = NtStatus.success then
          ⟨NtStatus.success, some 8,
            fun i => if i = coreNumber then (msr, readVal i) else state i,
            [readVal coreNumber]⟩
        else
          ⟨dpcStatus, some 0,
            fun i => if i = coreNumber then (msr, (state i).2) else state i, []⟩
  else
    ⟨NtStatus.unsuccessful, some 0, state, []⟩

/-- Modelled from the spec: the `EDIT_BYTE` enum value of
`DEBUGGER_EDIT_MEMORY_BYTE_SIZE`, defined in headers not in this repository
snapshot; the spec's data model fixes chunkGranularity Byte = 1. -/
def EDIT_BYTE : Nat := 1

/-- Modelled from the spec: the `EDIT_DWORD` enum value
(chunkGranularity Dword = 4 in the spec's data model). -/
def EDIT_DWORD : Nat := 4

/-- Modelled from the spec: the `EDIT_QWORD` enum value
(chunkGranularity Qword = 8 in the spec's data model). -/
def EDIT_QWORD : Nat := 8

/-- `EDIT_MEMORY_TYPE`: virtual, physical, or any other (invalid) value. -/
inductive EditMemType where
  | virtualMem
  | physicalMem
  | invalidMem
deriving DecidableEq

/-- The chunk-size dispatch at the top of both edit routines
(`if ByteSize == EDIT_BYTE ... else invalid parameter`). -/
def editGranularity (byteSize : Nat) : Option Nat :=
  if byteSize = EDIT_BYTE then some 1
  else if byteSize = EDIT_DWORD then some 4
  else if byteSize = EDIT_QWORD then some 8
  else none

/-- Outcome of `DebuggerCommandEditMemoryVmxRoot`: the BOOLEAN return value,
the `Result` field, and the trace of chunk writes performed — each entry is
(destination address, source slot value, number of bytes written). -/
structure EditResult where
  ret : Bool
  result : DebuggerStatus
  writes : List (Nat × Nat × Nat)
deriving DecidableEq

/-- `DebuggerCommandEditMemoryVmxRoot` (lines 562-663).  `payload i` is the
64-bit slot `i` of the request's trailing payload; `accessSafe a l` is the
outcome of `CheckAccessValidityAndSafety(a, l)`; `physValid` of
`CheckAddressPhysical`.  Chunk `i` is written to
`Address + i * LengthOfEachChunk`, taking `LengthOfEachChunk` bytes from
slot `i`; the virtual branch first checks
`CheckAccessValidityAndSafety(Address, ByteSize * CountOf64Chunks)`. -/
def DebuggerCommandEditMemoryVmxRoot (address byteSize count : Nat)
    (memType : EditMemType) (payload : Nat → Nat) (accessSafe : Nat → Nat → Bool)
    (physValid : Bool) : EditResult :=
  match editGranularity byteSize with
  | none => ⟨false, DebuggerStatus.editInvalidParameter, []⟩
  | some g =>
    match memType with
    | EditMemType.virtualMem =>
      if accessSafe address (byteSize * count) = false then
        ⟨false, DebuggerStatus.invalidAddress, []⟩
      else
        ⟨true, DebuggerStatus.operationSuccessful,
          (List.range count).map (fun i => (address + i * g, payload i, g))⟩
    | EditMemType.physicalMem =>
      if physValid = false then
        ⟨false, DebuggerStatus.invalidAddress, []⟩
      else
        ⟨true, DebuggerStatus.operationSuccessful,
          (List.range count).map (fun i => (address + i * g, payload i, g))⟩
    | EditMemType.invalidMem => ⟨false, DebuggerStatus.editInvalidParameter, []⟩

/-- Modelled from the spec: the `SEARCH_BYTE` enum value of
`DEBUGGER_SEARCH_MEM_BYTE_SIZE`, defined in headers not in this repository
snapshot; the spec's data model fixes chunkGranularity Byte = 1. -/
def SEARCH_BYTE : Nat := 1

/-- Modelled from the spec: the `SEARCH_DWORD` enum value
(chunkGranularity Dword = 4 in the spec's data model). -/
def SEARCH_DWORD : Nat := 4

/-- Modelled from the spec: the `SEARCH_QWORD` enum value
(chunkGranularity Qword = 8 in the spec's data model). -/
def SEARCH_QWORD : Nat := 8

/-- `DEBUGGER_SEARCH_MEMORY_TYPE`: virtual, physical, the internal
physical-from-virtual tag, or any other (invalid) value. -/
inductive SearchMemType where
  | virtualMem
  | physicalMem
  | physicalFromVirtualMem
  | invalidMem
deriving DecidableEq

/-- The chunk-size dispatch at the top of `PerformSearchAddress`
(`if ByteSize == SEARCH_BYTE ... else return FALSE`). -/
def searchGranularity (byteSize : Nat) : Option Nat :=
  if byteSize = SEARCH_BYTE then some 1
  else if byteSize = SEARCH_DWORD then some 4
  else if byteSize = SEARCH_QWORD then some 8
  else none

/-- A `LengthOfEachChunk`-byte little-endian read into the zero-initialised
`Cmp64` local: only the low `g` bytes are written, the upper bytes of the
64-bit local stay zero. -/
def chunkRead (mem : Nat → Nat) (addr : Nat) : Nat → Nat
  | 0 => 0
  | g + 1 => mem addr + 256 * chunkRead mem (addr + 1) g

/-- The inner verification loop of `PerformSearchAddress` (lines 798-844):
`for (i = LengthOfEachChunk; i < CountOf64Chunks; i++)` compares the chunk
at `BaseIterator + LengthOfEachChunk * i` with the full 64-bit payload slot
`i`; the result is that every compared index matched.  Note the loop starts
at index `LengthOfEachChunk` (`g`), exactly as the source does. -/
def searchRest (mem slot : Nat → Nat) (k base g : Nat) : Bool :=
  (List.range' g (k - g)).all (fun i => chunkRead mem (base + g * i) g == slot i)

/-- The mutable locals of the scan loop of `PerformSearchAddress`:
`CountOfOccurance`, `IndexToArrayOfResults`, and the trace of stores into
`AddressToSaveResults` as (index, value) pairs. -/
structure ScanState where
  count : Nat
  index : Nat
  stores : List (Nat × Nat)
deriving DecidableEq

/-- The scan loop of `PerformSearchAddress` (lines 759-916):
`for (BaseIterator = StartAddress; BaseIterator < EndAddress;
BaseIterator += LengthOfEachChunk)`.  On a full match the address (or its
physical translation `v2p` in physical-from-virtual mode) is stored at the
current index (logged instead when `isPaused`), the occurrence counter is
bumped, and then — only then — the index is compared against the capacity:
if the buffer is full the function returns at once.  `fuel` is an upper
bound on the iteration count; the caller passes `endAddr - base`, which
suffices because `g ≥ 1` after the granularity dispatch. -/
def scanLoop (mem slot : Nat → Nat) (k g endAddr maxResults : Nat)
    (isPaused isPhysFromVirt : Bool) (v2p : Nat → Nat) :
    Nat → Nat → ScanState → ScanState
  | 0, _, st => st
  | fuel + 1, base, st =>
    if base < endAddr then
      if chunkRead mem base g == slot 0 && searchRest mem slot k base g then
        let matchVal := if isPhysFromVirt then v2p base else base
        let st1 : ScanState :=
          ⟨st.count + 1, st.index,
            if isPaused then st.stores else st.stores ++ [(st.index, matchVal)]⟩
        if maxResults > st1.index then
          scanLoop mem slot k g endAddr maxResults isPaused isPhysFromVirt v2p
            fuel (base + g) ⟨st1.count, st1.index + 1, st1.stores⟩
        else st1
      else
        scanLoop mem slot k g endAddr maxResults isPaused isPhysFromVirt v2p
          fuel (base + g) st
    else st

/-- Outcome of `PerformSearchAddress`: the BOOLEAN return value, the value
written through `CountOfMatchedCases` (`none` when the function returns
without writing it), and the trace of stores into the result array. -/
structure PerfResult where
  ok : Bool
  countOut : Option Nat
  stores : List (Nat × Nat)
deriving DecidableEq

/-- `PerformSearchAddress` (lines 683-950).  `mem` is the byte content of
the scanned address space, `slot i` the 64-bit payload slot `i` of the
request (the pattern chunks), `k` the `CountOf64Chunks` field, `v2p` the
`VirtualAddressToPhysicalAddress` translation.  The cr3 switch/restore pair
does not affect the computed values and is not modelled. -/
def PerformSearchAddress (mem slot : Nat → Nat) (k byteSize : Nat)
    (memType : SearchMemType) (startAddress endAddr maxResults : Nat)
    (isPaused : Bool) (v2p : Nat → Nat) : PerfResult :=
  match searchGranularity byteSize with
  | none => ⟨false, none, []⟩
  | some g =>
    if memType = SearchMemType.virtualMem ∨
        memType = SearchMemType.physicalFromVirtualMem then
      let final := scanLoop mem slot k g endAddr maxResults isPaused
        (decide (memType = SearchMemType.physicalFromVirtualMem)) v2p
        (endAddr - startAddress) startAddress ⟨0, 0, []⟩
      ⟨true, some final.count, final.stores⟩
    else
      ⟨false, none, []⟩

/-- The Windows page size used by `PAGE_ALIGN`/`PAGE_SIZE` (standard x64
constants from the WDK headers, which are outside this repository). -/
def PAGE_SIZE : Nat := 4096

/-- `PAGE_ALIGN`: round an address down to its page boundary. -/
def PAGE_ALIGN (a : Nat) : Nat := a - a % PAGE_SIZE

/-- The contiguity walk of `SearchAddressWrapper` (lines 1020-1053):
starting from the page-aligned start, advance one page at a time while the
page translates to a non-zero physical address and the cursor is below the
end address; return the cursor where the loop stopped.  `fuel` bounds the
iteration count; the caller passes `endAddr`, which suffices because the
cursor grows by `PAGE_SIZE` per iteration. -/
def contigWalk (translate : Nat → Nat) (endAddr : Nat) : Nat → Nat → Nat
  | 0, s => s
  | fuel + 1, s =>
    if s < endAddr then
      if translate s ≠ 0 then contigWalk translate endAddr fuel (s + PAGE_SIZE)
      else s
    else s

/-- Outcome of `SearchAddressWrapper`: the BOOLEAN return value (FALSE is the
"range not contiguous" rejection), the final `CountOfMatchedCases`, and the
trace of result stores. -/
structure WrapResult where
  result : Bool
  count : Nat
  stores : List (Nat × Nat)
deriving DecidableEq

/-- `SearchAddressWrapper` (lines 969-1133).  For a virtual search: reset the
match count, page-align the start, walk the pages for contiguity (the base
address is latched to the original unaligned start on the first valid page;
the walk breaks at the first invalid page), and if a base was latched and
the walk advanced past it, run `PerformSearchAddress` over
[original start, original end).  For a physical search: translate both
bounds to virtual addresses with `p2v` and re-dispatch tagged as
physical-from-virtual.  Any other memory type leaves `SearchResult` FALSE. -/
def SearchAddressWrapper (translate : Nat → Nat) (mem slot : Nat → Nat)
    (k byteSize : Nat) (memType : SearchMemType)
    (startAddress endAddr maxResults : Nat) (isPaused : Bool)
    (v2p p2v : Nat → Nat) : WrapResult :=
  match memType with
  | SearchMemType.virtualMem =>
    let tempStartAddress := startAddress
    let aligned := PAGE_ALIGN startAddress
    let walkEnd := contigWalk translate endAddr endAddr aligned
    let baseSaved := aligned < endAddr ∧ translate aligned ≠ 0
    if baseSaved ∧ walkEnd > tempStartAddress then
      let perf := PerformSearchAddress mem slot k byteSize memType
        tempStartAddress endAddr maxResults isPaused v2p
      ⟨perf.ok, perf.countOut.getD 0, perf.stores⟩
    else
      ⟨false, 0, []⟩
  | SearchMemType.physicalMem =>
    let perf := PerformSearchAddress mem slot k byteSize
      SearchMemType.physicalFromVirtualMem (p2v startAddress) (p2v endAddr)
      maxResults isPaused v2p
    ⟨perf.ok, perf.countOut.getD 0, perf.stores⟩
  | _ => ⟨false, 0, []⟩

/-- Outcome of `DebuggerCommandSearchMemory`: the NTSTATUS and the compacted
result addresses copied back to the user buffer. -/
structure SearchCmdResult where
  status : NtStatus
  output : List Nat
deriving DecidableEq

/-- The scratch result storage after the wrapper ran: zero-initialised slots
(`PlatformMemAllocateZeroedNonPagedPool`) overwritten by the recorded
stores in order. -/
def applyStores (stores : List (Nat × Nat)) : Nat → Nat :=
  stores.foldl (fun f p => fun i => if i = p.1 then p.2 else f i) (fun _ => 0)

/-- The compaction loop of `DebuggerCommandSearchMemory` (lines 1206-1226):
walk the scratch slots in order, stop at the first zero sentinel, and keep
exactly the values inside the inclusive [AddressFrom, AddressTo] bounds. -/
def compactLoop (storage : Nat → Nat) (addressFrom addressTo : Nat) :
    Nat → Nat → List Nat
  | 0, _ => []
  | rem + 1, i =>
    if storage i = 0 then []
    else if addressFrom ≤ storage i ∧ storage i ≤ addressTo then
      storage i :: compactLoop storage addressFrom addressTo rem (i + 1)
    else
      compactLoop storage addressFrom addressTo rem (i + 1)

/-- `DebuggerCommandSearchMemory` (lines 1141-1234).  `processOk` stands for
the process-id validation, `allocOk` for the scratch-pool allocation,
`maxResults` for the system-wide `MaximumSearchResults` capacity (a constant
defined outside this repository snapshot).  The wrapper's return value is
ignored by the source, which always reports STATUS_SUCCESS after
compaction. -/
def DebuggerCommandSearchMemory (translate mem slot : Nat → Nat)
    (k byteSize : Nat) (memType : SearchMemType) (address length maxResults : Nat)
    (processOk allocOk : Bool) (v2p p2v : Nat → Nat) : SearchCmdResult :=
  if processOk = false then ⟨NtStatus.invalidParameter, []⟩
  else if allocOk = false then ⟨NtStatus.insufficientResources, []⟩
  else
    let addressFrom := address
    let addressTo := address + length
    let w := SearchAddressWrapper translate mem slot k byteSize memType
      addressFrom addressTo maxResults false v2p p2v
    ⟨NtStatus.success,
      compactLoop (applyStores w.stores) addressFrom addressTo maxResults 0⟩

/-- C4: for every restricted-context (vmx-root) virtual read of `size` bytes
at `address`, every breakpoint descriptor whose address lies within
[address, address + size] has the destination-buffer byte at offset
`desc.address - address` replaced by the descriptor's previous byte when the
raw byte there is the trap opcode 0xCC, and left unchanged otherwise; the
masking is applied for every overlapping descriptor of the table (table
order, at most one descriptor per address). -/
theorem vmxroot_read_unshadow_c4 (pid size address : Nat) (getAddressMode : Bool)
    (amIn : AddressMode) (physValid : Bool) (buf0 physRead virtRead : Nat → Nat)
    (bpTable : List BpDescriptor) (wow64 : Option Bool) (d : BpDescriptor)
    (hdist : bpTable.Pairwise (fun a b => a.address ≠ b.address))
    (hmem : d ∈ bpTable) (h1 : address ≤ d.address)
    (h2 : d.address ≤ address + size) :
    (DebuggerCommandReadMemoryVmxRoot pid size address ReadMemType.virtualMem
        getAddressMode amIn physValid true buf0 physRead virtRead bpTable
        wow64).buffer (d.address - address) =
      if virtRead (d.address - address) = 0xCC then d.previousByte
      else virtRead (d.address - address) := by
  have hbuf : (DebuggerCommandReadMemoryVmxRoot pid size address
      ReadMemType.virtualMem getAddressMode amIn physValid true buf0 physRead
      virtRead bpTable wow64).buffer = applyBpMask address size bpTable virtRead := by
    simp [DebuggerCommandReadMemoryVmxRoot]
  rw [hbuf]
  exact applyBpMask_desc address size bpTable virtRead d hdist hmem h1 h2

/-- Witness for C4 at a concrete input: one descriptor at 0x1002, a read of
4 bytes at 0x1000 whose raw byte at offset 2 is 0xCC, is un-shadowed to the
stored previous byte 0x90. -/
theorem vmxroot_read_unshadow_c4_witness :
    (DebuggerCommandReadMemoryVmxRoot 0 4 0x1000 ReadMemType.virtualMem
        false AddressMode.unknownMode true true (fun _ => 0) (fun _ => 0)
        (fun a => if a = 2 then 0xCC else 7) [⟨0x1002, 0x90⟩]
        none).buffer (0x1002 - 0x1000) =
      if (fun a => if a = 2 then 0xCC else 7) (0x1002 - 0x1000) = 0xCC then 0x90
      else (fun a => if a = 2 then 0xCC else 7) (0x1002 - 0x1000) :=
  vmxroot_read_unshadow_c4 0 4 0x1000 false AddressMode.unknownMode true
    (fun _ => 0) (fun _ => 0) (fun a => if a = 2 then 0xCC else 7)
    [⟨0x1002, 0x90⟩] none ⟨0x1002, 0x90⟩ (by simp) (by simp) (by decide)
    (by decide)

/-- C9: the breakpoint-overlap test of the restricted-context read is
inclusive at both ends, so a descriptor whose address equals exactly
`address + size` is treated as overlapping and the engine inspects — and,
when the raw byte there is 0xCC, overwrites — the destination-buffer byte at
offset `size`, one byte past the `size` bytes the caller requested. -/
theorem vmxroot_read_inclusive_overshoot_c9 (pid size address : Nat)
    (getAddressMode : Bool) (amIn : AddressMode) (physValid : Bool)
    (buf0 physRead virtRead : Nat → Nat) (wow64 : Option Bool) (pb : Nat)
    (hcc : virtRead size = 0xCC) :
    (DebuggerCommandReadMemoryVmxRoot pid size address ReadMemType.virtualMem
        getAddressMode amIn physValid true buf0 physRead virtRead
        [⟨address + size, pb⟩] wow64).buffer size = pb := by
  have hoff : address + size - address = size := by omega
  simp only [DebuggerCommandReadMemoryVmxRoot, applyBpMask]
  rw [if_neg (by decide)]
  simp only [hoff]
  rw [if_pos ⟨Nat.le_add_right _ _, Nat.le_refl _⟩, if_pos hcc]
  simp

/-- Witness for C9 at a concrete input: a descriptor at 0x2004 = 0x2000 + 4
makes a 4-byte read at 0x2000 rewrite buffer offset 4 to 0x90. -/
theorem vmxroot_read_inclusive_overshoot_c9_witness :
    (DebuggerCommandReadMemoryVmxRoot 0 4 0x2000 ReadMemType.virtualMem
        false AddressMode.unknownMode true true (fun _ => 0) (fun _ => 0)
        (fun _ => 0xCC) [⟨0x2000 + 4, 0x90⟩] none).buffer 4 = 0x90 :=
  vmxroot_read_inclusive_overshoot_c9 0 4 0x2000 false AddressMode.unknownMode
    true (fun _ => 0) (fun _ => 0) (fun _ => 0xCC) none 0x90 rfl

/-- C5: for every successful virtual read with address-mode inference
requested, in both the normal and the restricted context, the reported mode
equals the specification's classification: canonical-kernel-range addresses
(at or above 0xFFFF800000000000, below 2^64) are always 64-bit; lower
addresses follow the WOW64 query; a failed query defaults to 64-bit. -/
theorem address_mode_inference_c5 (pid size address : Nat) (amIn : AddressMode)
    (readBytes : Nat) (physValid : Bool) (buf0 physRead virtRead : Nat → Nat)
    (bpTable : List BpDescriptor) (wow64 : Option Bool)
    (hsize : size ≠ 0) (haddr : address ≠ 0) (hlt : address < 2 ^ 64) :
    ((DebuggerCommandReadMemory pid size address ReadMemType.virtualMem true
        amIn true readBytes wow64).addressMode = specAddressMode address wow64) ∧
    ((DebuggerCommandReadMemoryVmxRoot pid size address ReadMemType.virtualMem
        true amIn physValid true buf0 physRead virtRead bpTable
        wow64).addressMode = specAddressMode address wow64) := by
  have hhi : address ≤ 0xFFFFFFFFFFFFFFFF := by omega
  constructor
  · simp only [DebuggerCommandReadMemory, specAddressMode]
    rw [if_pos ⟨hsize, haddr⟩]
    by_cases hk : 0xFFFF800000000000 ≤ address
    · simp [hk, hhi]
    · simp [hk]
  · simp only [DebuggerCommandReadMemoryVmxRoot, specAddressMode]
    by_cases hk : 0xFFFF800000000000 ≤ address
    · simp [hk, hhi]
    · simp [hk]

/-- Witness for C5 at a concrete input: a user-space address with a
successful WOW64 query reporting a 32-bit process classifies as 32-bit in
both contexts. -/
theorem address_mode_inference_c5_witness :
    ((DebuggerCommandReadMemory 1 1 0x1000 ReadMemType.virtualMem true
        AddressMode.unknownMode true 1 (some true)).addressMode =
      specAddressMode 0x1000 (some true)) ∧
    ((DebuggerCommandReadMemoryVmxRoot 1 1 0x1000 ReadMemType.virtualMem
        true AddressMode.unknownMode true true (fun _ => 0) (fun _ => 0)
        (fun _ => 0) [] (some true)).addressMode =
      specAddressMode 0x1000 (some true)) :=
  address_mode_inference_c5 1 1 0x1000 AddressMode.unknownMode 1 true
    (fun _ => 0) (fun _ => 0) (fun _ => 0) [] (some true) (by decide)
    (by decide) (by decide)

/-- C6: every normal-context read request with size = 0 or address = 0
returns FALSE with the reading-memory invalid-parameter status and copies
zero bytes into the caller's buffer (the external read routine is never
invoked), so a non-zero size and address are necessary for any read to
proceed. -/
theorem normal_read_zero_reject_c6 (pid size address : Nat)
    (memType : ReadMemType) (getAddressMode : Bool) (amIn : AddressMode)
    (readOk : Bool) (readBytes : Nat) (wow64 : Option Bool)
    (h : size = 0 ∨ address = 0) :
    (DebuggerCommandReadMemory pid size address memType getAddressMode amIn
        readOk readBytes wow64).ret = false ∧
    (DebuggerCommandReadMemory pid size address memType getAddressMode amIn
        readOk readBytes wow64).status =
      DebuggerStatus.readingMemoryInvalidParameter ∧
    (DebuggerCommandReadMemory pid size address memType getAddressMode amIn
        readOk readBytes wow64).bytesCopied = 0 := by
  have hcond : ¬(size ≠ 0 ∧ address ≠ 0) := by
    rcases h with h | h <;> simp [h]
  simp [DebuggerCommandReadMemory, hcond]

/-- Witness for C6 at a concrete input: a zero-size request is rejected with
the invalid-parameter status and no bytes copied. -/
theorem normal_read_zero_reject_c6_witness :
    (DebuggerCommandReadMemory 1 0 0x1000 ReadMemType.virtualMem false
        AddressMode.unknownMode true 5 none).ret = false ∧
    (DebuggerCommandReadMemory 1 0 0x1000 ReadMemType.virtualMem false
        AddressMode.unknownMode true 5 none).status =
      DebuggerStatus.readingMemoryInvalidParameter ∧
    (DebuggerCommandReadMemory 1 0 0x1000 ReadMemType.virtualMem false
        AddressMode.unknownMode true 5 none).bytesCopied = 0 :=
  normal_read_zero_reject_c6 1 0 0x1000 ReadMemType.virtualMem false
    AddressMode.unknownMode true 5 none (Or.inl rfl)

/-- C7: for every restricted-context (vmx-root) virtual-memory edit with a
recognised granularity G in {1, 4, 8} and chunk count N, the
access-and-safety check covers the full aggregate range of G * N bytes at
the target address and happens before any chunk write: if the check fails
the edit returns FALSE with the invalid-address status and performs no
write, and any performed write implies the check passed. -/
theorem vmxroot_edit_precheck_c7 (address byteSize count : Nat)
    (payload : Nat → Nat) (accessSafe : Nat → Nat → Bool) (physValid : Bool)
    (g : Nat)
    (hg : (byteSize = EDIT_BYTE ∧ g = 1) ∨ (byteSize = EDIT_DWORD ∧ g = 4) ∨
      (byteSize = EDIT_QWORD ∧ g = 8)) :
    ((accessSafe address (g * count) = false →
      (DebuggerCommandEditMemoryVmxRoot address byteSize count
          EditMemType.virtualMem payload accessSafe physValid).ret = false ∧
      (DebuggerCommandEditMemoryVmxRoot address byteSize count
          EditMemType.virtualMem payload accessSafe physValid).result =
        DebuggerStatus.invalidAddress ∧
      (DebuggerCommandEditMemoryVmxRoot address byteSize count
          EditMemType.virtualMem payload accessSafe physValid).writes = []) ∧
    ((DebuggerCommandEditMemoryVmxRoot address byteSize count
        EditMemType.virtualMem payload accessSafe physValid).writes ≠ [] →
      accessSafe address (g * count) = true)) := by
  have hbg : byteSize = g := by
    rcases hg with ⟨h1, h2⟩ | ⟨h1, h2⟩ | ⟨h1, h2⟩ <;>
      simp [h1, h2, EDIT_BYTE, EDIT_DWORD, EDIT_QWORD]
  have hgr : editGranularity byteSize = some g := by
    rcases hg with ⟨h1, h2⟩ | ⟨h1, h2⟩ | ⟨h1, h2⟩ <;>
      simp [h1, h2, editGranularity, EDIT_BYTE, EDIT_DWORD, EDIT_QWORD]
  cases hA : accessSafe address (g * count) with
  | false =>
    subst hbg
    simp [DebuggerCommandEditMemoryVmxRoot, hgr, hA]
  | true =>
    subst hbg
    simp [DebuggerCommandEditMemoryVmxRoot, hgr, hA]

/-- Witness for C7 at a concrete input: a qword edit of two chunks whose
16-byte range check fails writes nothing and reports the invalid-address
status. -/
theorem vmxroot_edit_precheck_c7_witness :
    (((fun _ _ => false : Nat → Nat → Bool) 0x1000 (8 * 2) = false →
      (DebuggerCommandEditMemoryVmxRoot 0x1000 EDIT_QWORD 2
          EditMemType.virtualMem (fun _ => 0) (fun _ _ => false) true).ret = false ∧
      (DebuggerCommandEditMemoryVmxRoot 0x1000 EDIT_QWORD 2
          EditMemType.virtualMem (fun _ => 0) (fun _ _ => false) true).result =
        DebuggerStatus.invalidAddress ∧
      (DebuggerCommandEditMemoryVmxRoot 0x1000 EDIT_QWORD 2
          EditMemType.virtualMem (fun _ => 0) (fun _ _ => false) true).writes = []) ∧
    ((DebuggerCommandEditMemoryVmxRoot 0x1000 EDIT_QWORD 2
        EditMemType.virtualMem (fun _ => 0) (fun _ _ => false) true).writes ≠ [] →
      (fun _ _ => false : Nat → Nat → Bool) 0x1000 (8 * 2) = true)) :=
  vmxroot_edit_precheck_c7 0x1000 EDIT_QWORD 2 (fun _ => 0) (fun _ _ => false)
    true 8 (Or.inr (Or.inr ⟨rfl, rfl⟩))

/-- C8: every single-core MSR read or write request whose core index is at
least the live processor count (and is not the all-cores sentinel) returns
the invalid-parameter status and leaves every per-core MSR state slot
exactly as it was. -/
theorem msr_invalid_core_c8 (action : MsrAction) (coreNumber msr value : Nat)
    (processorsCount : Nat) (state : Nat → Nat × Nat) (readVal : Nat → Nat)
    (dpcStatus : NtStatus)
    (hact : action = MsrAction.msrWrite ∨ action = MsrAction.msrRead)
    (hcore : coreNumber ≠ DEBUGGER_READ_AND_WRITE_ON_MSR_APPLY_ALL_CORES)
    (hge : processorsCount ≤ coreNumber) :
    (DebuggerReadOrWriteMsr action coreNumber msr value processorsCount state
        readVal dpcStatus).status = NtStatus.invalidParameter ∧
    (DebuggerReadOrWriteMsr action coreNumber msr value processorsCount state
        readVal dpcStatus).state = state := by
  rcases hact with h | h <;> subst h <;>
    simp [DebuggerReadOrWriteMsr, hcore, hge]

/-- Witness for C8 at a concrete input: a write to core 5 on a 2-processor
system is rejected with the invalid-parameter status and an unchanged state
table. -/
theorem msr_invalid_core_c8_witness :
    (DebuggerReadOrWriteMsr MsrAction.msrWrite 5 0x1B 7 2 (fun _ => (0, 0))
        (fun _ => 0) NtStatus.success).status = NtStatus.invalidParameter ∧
    (DebuggerReadOrWriteMsr MsrAction.msrWrite 5 0x1B 7 2 (fun _ => (0, 0))
        (fun _ => 0) NtStatus.success).state = (fun _ => (0, 0)) :=
  msr_invalid_core_c8 MsrAction.msrWrite 5 0x1B 7 2 (fun _ => (0, 0))
    (fun _ => 0) NtStatus.success (Or.inl rfl) (by decide) (by decide)

/-- The loop invariant of the scan loop before the result buffer overflows:
the store index tracks the occurrence counter, the counter is within the
capacity, and the recorded stores hit exactly the indices 0..count-1 in
order. -/
def ScanInv (maxResults : Nat) (st : ScanState) : Prop :=
  st.index = st.count ∧ st.count ≤ maxResults ∧
    st.stores.map Prod.fst = List.range st.count

lemma scanLoop_inv (mem slot : Nat → Nat) (k g endAddr maxResults : Nat)
    (isPhys : Bool) (v2p : Nat → Nat) :
    ∀ (fuel base : Nat) (st : ScanState), ScanInv maxResults st →
      ScanInv maxResults
        (scanLoop mem slot k g endAddr maxResults false isPhys v2p fuel base st) ∨
      ((scanLoop mem slot k g endAddr maxResults false isPhys v2p fuel base
          st).count = maxResults + 1 ∧
        (scanLoop mem slot k g endAddr maxResults false isPhys v2p fuel base
          st).stores.map Prod.fst = List.range (maxResults + 1)) := by
  intro fuel
  induction fuel with
  | zero => intro base st h; exact Or.inl h
  | succ n ih =>
    intro base st h
    obtain ⟨h1, h2, h3⟩ := h
    simp only [scanLoop]
    by_cases hb : base < endAddr
    · rw [if_pos hb]
      by_cases hm : (chunkRead mem base g == slot 0 &&
          searchRest mem slot k base g) = true
      · rw [if_pos hm]
        simp only [Bool.false_eq_true, if_false]
        by_cases hcap : maxResults > st.index
        · rw [if_pos hcap]
          refine ih (base + g) _
            ⟨by show st.index + 1 = st.count + 1; omega,
             by show st.count + 1 ≤ maxResults; omega, ?_⟩
          show (st.stores ++ [(st.index, _)]).map Prod.fst = List.range (st.count + 1)
          simp only [List.map_append, List.map_cons, List.map_nil, h3, h1]
          rw [← List.range_succ]
        · rw [if_neg hcap]
          refine Or.inr ⟨by show st.count + 1 = maxResults + 1; omega, ?_⟩
          have hcnt : st.count = maxResults := by omega
          show (st.stores ++ [(st.index, _)]).map Prod.fst = List.range (maxResults + 1)
          simp only [List.map_append, List.map_cons, List.map_nil, h3, h1, hcnt]
          rw [← List.range_succ]
      · rw [if_neg hm]
        exact ih (base + g) st ⟨h1, h2, h3⟩
    · rw [if_neg hb]
      exact Or.inl ⟨h1, h2, h3⟩

/-- C10: in `PerformSearchAddress` each match address is stored at the
current index before the capacity bound is checked, so whenever the reported
count of matched cases reaches `maxResults + 1`, exactly `maxResults + 1`
stores were issued and the last one targets index `maxResults` — one slot
past a result array of `maxResults` entries — right before the function
returns because the buffer is full. -/
theorem performSearch_oob_store_c10 (mem slot : Nat → Nat) (k byteSize : Nat)
    (memType : SearchMemType) (startAddress endAddr maxResults : Nat)
    (v2p : Nat → Nat)
    (hcount : (PerformSearchAddress mem slot k byteSize memType startAddress
        endAddr maxResults false v2p).countOut = some (maxResults + 1)) :
    (PerformSearchAddress mem slot k byteSize memType startAddress endAddr
        maxResults false v2p).stores.length = maxResults + 1 ∧
    ((PerformSearchAddress mem slot k byteSize memType startAddress endAddr
        maxResults false v2p).stores.map Prod.fst).getLast? = some maxResults := by
  cases hg : searchGranularity byteSize with
  | none => simp [PerformSearchAddress, hg] at hcount
  | some g =>
    by_cases hmt : memType = SearchMemType.virtualMem ∨
        memType = SearchMemType.physicalFromVirtualMem
    · simp only [PerformSearchAddress, hg, if_pos hmt, Option.some.injEq] at hcount
      simp only [PerformSearchAddress, hg, if_pos hmt]
      have hinv := scanLoop_inv mem slot k g endAddr maxResults
        (decide (memType = SearchMemType.physicalFromVirtualMem)) v2p
        (endAddr - startAddress) startAddress ⟨0, 0, []⟩
        ⟨rfl, Nat.zero_le _, rfl⟩
      rcases hinv with ⟨_, hle, _⟩ | ⟨_, hmap⟩
      · omega
      · constructor
        · have := congrArg List.length hmap
          simpa using this
        · rw [hmap, List.range_succ]
          simp
    · simp [PerformSearchAddress, hg, if_neg hmt] at hcount

/-- Witness for C10 at a concrete input: a one-byte pattern, a two-byte
range of matches and capacity 1 produce a reported count of 2 with two
stores whose last index is 1 = capacity. -/
theorem performSearch_oob_store_c10_witness :
    (PerformSearchAddress (fun _ => 9) (fun _ => 9) 1 SEARCH_BYTE
        SearchMemType.virtualMem 0 2 1 false (fun a => a)).stores.length =
      1 + 1 ∧
    ((PerformSearchAddress (fun _ => 9) (fun _ => 9) 1 SEARCH_BYTE
        SearchMemType.virtualMem 0 2 1 false (fun a => a)).stores.map
        Prod.fst).getLast? = some 1 :=
  performSearch_oob_store_c10 (fun _ => 9) (fun _ => 9) 1 SEARCH_BYTE
    SearchMemType.virtualMem 0 2 1 (fun a => a) (by decide)

set_option maxRecDepth 40000

/-- C1: evaluation of the search path on a range whose middle page is
unmapped.  The request covers the three pages 0x1000, 0x2000 and 0x3000
(start 0x1FF8, end 0x3008); page 0x2000 does not translate.  The contiguity
walk latches the base on the valid first page and breaks at 0x2000, yet the
wrapper still scans the full original range [0x1FF8, 0x3008): the search is
not rejected, a candidate position (0x3000) on the far side of the first
invalid page is compared and reported, the wrapper returns TRUE with one
match, and the top-level command reports that match back to the caller
instead of zero results. -/
theorem searchWrapper_scans_past_unmapped_page_c1 :
    (SearchAddressWrapper (fun a => if a = 0x2000 then 0 else 1)
        (fun a => if a = 0x3000 then 1 else 0) (fun _ => 1) 1 SEARCH_QWORD
        SearchMemType.virtualMem 0x1FF8 0x3008 4096 false (fun a => a)
        (fun a => a)
      = ⟨true, 1, [(0, 0x3000)]⟩) ∧
    (DebuggerCommandSearchMemory (fun a => if a = 0x2000 then 0 else 1)
        (fun a => if a = 0x3000 then 1 else 0) (fun _ => 1) 1 SEARCH_QWORD
        SearchMemType.virtualMem 0x1FF8 0x1010 4096 true true (fun a => a)
        (fun a => a)
      = ⟨NtStatus.success, [0x3000]⟩) := by decide

/-- C2: evaluation of `PerformSearchAddress` on a Dword-granularity pattern
of two chunks [5, 7] where memory holds chunk 5 at 0x1000 and chunk 6 — not
7 — at 0x1004.  Because the inner verification loop starts at index
`LengthOfEachChunk` = 4 rather than 1, pattern chunk 1 is never compared and
the position is reported as a full match even though the chunk at offset
1 * granularity differs from pattern chunk 1. -/
theorem performSearch_skips_low_chunks_c2 :
    (PerformSearchAddress
        (fun a => if a = 0x1000 then 5 else if a = 0x1004 then 6 else 0)
        (fun i => if i = 0 then 5 else 7) 2 SEARCH_DWORD
        SearchMemType.virtualMem 0x1000 0x1004 4096 false (fun a => a)
      = ⟨true, some 1, [(0, 0x1000)]⟩) ∧
    chunkRead (fun a => if a = 0x1000 then 5 else if a = 0x1004 then 6 else 0)
        (0x1000 + 4 * 1) 4 ≠ (fun i : Nat => if i = 0 then 5 else 7) 1 := by
  decide

/-- C3: evaluation of `PerformSearchAddress` with capacity 1 on a range
holding two matches of a one-byte pattern.  The function returns success but
reports `CountOfMatchedCases` = 2 = capacity + 1 (after storing a second
result at index 1, past the one-slot buffer), not the capacity 1 the
specification promises. -/
theorem performSearch_overflow_count_c3 :
    PerformSearchAddress (fun _ => 9) (fun _ => 9) 1 SEARCH_BYTE
        SearchMemType.virtualMem 0 2 1 false (fun a => a)
      = ⟨true, some 2, [(0, 0), (1, 1)]⟩ := by decide
